import Mathlib

set_option autoImplicit false

/-!
Shallow embedding of the two source files of the qtopcua extract:
  src/imports/opcua/opcuamethodnode.cpp   (OpcUaMethodNode, QML method invoker)
  src/opcua/client/qopcuahistorydata.cpp  (QOpcUaHistoryData, history value container)
Each definition mirrors one function of the source; doc comments give the
source location.  Base-class declarations (the OpcUaNode status field, the
shared-data pointer of QOpcUaHistoryData) live in headers that are not part
of the extract; where such a piece is needed it is modelled from the spec
and marked as such in its doc comment.
-/

namespace QtOpcUaModel

/-- Enumeration QOpcUa::UaStatusCode (protocol status codes).  The real enum
has many members; the model keeps the reserved success value `Good` and a few
failure codes, which is all the two source files distinguish. -/
inductive UaStatusCode
  | Good
  | BadUnexpectedError
  | BadInternalError
  | BadMethodInvalid
  deriving DecidableEq

/-- The reserved success value of the protocol status code: only `Good`
means unconditional success (spec glossary; qml doc of resultStatusCode:
on success, the value is Good). -/
def isGood : UaStatusCode → Bool
  | UaStatusCode.Good => true
  | _ => false

/-- Enumeration QOpcUa::NodeClass.  `Undefined` is the zero value, which the
conversion `QVariant::value<NodeClass>()` yields for an unset attribute. -/
inductive NodeClass
  | Undefined
  | Object
  | Variable
  | Method
  | ObjectType
  | VariableType
  | ReferenceType
  | DataType
  | View
  deriving DecidableEq

/-- Modelled from the spec: the node-status error taxonomy of the QML layer
(spec section 7).  The enum `OpcUaNode::Status` is declared in a header that
is not part of the extract; the source file uses the four members below via
`setStatus`. -/
inductive Status
  | Valid
  | InvalidNodeId
  | InvalidNodeType
  | InvalidObjectNode
  deriving DecidableEq

/-- Model of QVariant restricted to the shapes the source files inspect: the
invalid variant, scalar payloads, and a variant holding a QVariantList. -/
inductive QVariant
  | invalid
  | ofInt (n : Int)
  | ofString (s : String)
  | ofBool (b : Bool)
  | ofList (elems : List QVariant)

/-- Qt semantics of `QVariant::canConvert<QVariantList>()` for the variant
shapes of this model: only a variant that holds a sequence converts to a
QVariantList; an invalid variant or a scalar does not. -/
def canConvertVariantList : QVariant → Bool
  | QVariant.ofList _ => true
  | _ => false

/-- Qt semantics of `QVariant::value<QVariantList>()` for the variant shapes
of this model: the held sequence, or the empty list when the variant does not
convert (that branch is never taken by the source, which guards with
canConvert). -/
def toVariantList : QVariant → List QVariant
  | QVariant.ofList elems => elems
  | _ => []

/-- Wire type tag of a method argument (QOpcUa::Types). -/
inductive WireType
  | double
  | int32
  | boolean
  | string
  deriving DecidableEq

/-- One OpcUaMethodArgument: a value with a declared wire type; the source
reads it through `item->value()` and `item->type()`. -/
structure OpcUaMethodArgument where
  value : QVariant
  type : WireType

/-- A resolved backend node handle (QOpcUaNode).  `nodeId` is the string
identity returned by `nodeId()`; `nodeClassAttr` is the value of
`attribute(QOpcUa::NodeAttribute::NodeClass).value<QOpcUa::NodeClass>()`
(with `Undefined` standing for an unread attribute). -/
structure UaNode where
  nodeId : String
  nodeClassAttr : NodeClass
  deriving DecidableEq

/-- State of one OpcUaMethodNode.  `m_objectNode` models the OpcUaNode
wrapper pointer: `none` when the pointer is null, `some inner` when it
exists, where `inner` models `m_objectNode->node()` (`none` while the
resolution has not produced a backend handle).  `m_node` is the method
node handle of the base class.  `nodeStatus` and `nodeErrorMessage` model
the base-class status field written by `setStatus`. -/
structure OpcUaMethodNodeState where
  m_objectNode : Option (Option UaNode)
  m_node : Option UaNode
  m_inputArguments : List OpcUaMethodArgument
  m_outputArguments : List QVariant
  m_resultStatusCode : UaStatusCode
  nodeStatus : Status
  nodeErrorMessage : String

/-- Modelled from the spec: `OpcUaNode::setStatus` of the base class (not in
the extract) sets a local status field together with an optional
human-readable message (spec section 7: precondition failures set a local
status field).  The C++ default for the message argument is the empty
string; call sites pass it explicitly here. -/
def setStatus (s : OpcUaMethodNodeState) (st : Status) (message : String) :
    OpcUaMethodNodeState :=
  { s with nodeStatus := st, nodeErrorMessage := message }

/-- A remote method-call request as submitted to the backend by
`m_objectNode->node()->callMethod(m_node->nodeId(), arguments)`. -/
structure RemoteCallRequest where
  objectNode : UaNode
  methodNodeId : String
  arguments : List (QVariant × WireType)

/-- OpcUaMethodNode::callMethod (opcuamethodnode.cpp lines 192 to 214).
Checks the three null guards in source order; on a failure it calls
setStatus and returns without a request (`none` in the second component).
On success it maps every input argument to the pair of its value and its
wire type, in list order, and submits the request against the resolved
method node id on the resolved object node, leaving the state untouched. -/
def callMethod (s : OpcUaMethodNodeState) :
    OpcUaMethodNodeState × Option RemoteCallRequest :=
  match s.m_objectNode with
  | none => (setStatus s Status.InvalidObjectNode "", none)
  | some inner =>
    match inner with
    | none => (setStatus s Status.InvalidObjectNode "", none)
    | some objectHandle =>
      match s.m_node with
      | none => (setStatus s Status.InvalidNodeId "", none)
      | some methodHandle =>
        let arguments := s.m_inputArguments.map (fun item => (item.value, item.type))
        (s, some { objectNode := objectHandle,
                   methodNodeId := methodHandle.nodeId,
                   arguments := arguments })

/-- One primitive step of OpcUaMethodNode::handleMethodCallFinished: either a
state update (an assignment to a member) or the emission of a change
notification. -/
inductive HandlerAction
  | assignResultStatusCode (code : UaStatusCode)
  | clearOutputArguments
  | assignOutputArguments (values : List QVariant)
  | appendOutputArgument (value : QVariant)
  | emitResultStatusCodeChanged (code : UaStatusCode)
  | emitOutputArgumentsChanged

/-- Discriminates the state-update actions from the notification emissions. -/
def HandlerAction.isStateUpdate : HandlerAction → Bool
  | HandlerAction.assignResultStatusCode _ => true
  | HandlerAction.clearOutputArguments => true
  | HandlerAction.assignOutputArguments _ => true
  | HandlerAction.appendOutputArgument _ => true
  | HandlerAction.emitResultStatusCodeChanged _ => false
  | HandlerAction.emitOutputArgumentsChanged => false

/-- Effect of one handler action on the state; emissions do not change the
state. -/
def applyHandlerAction (s : OpcUaMethodNodeState) :
    HandlerAction → OpcUaMethodNodeState
  | HandlerAction.assignResultStatusCode code =>
      { s with m_resultStatusCode := code }
  | HandlerAction.clearOutputArguments =>
      { s with m_outputArguments := [] }
  | HandlerAction.assignOutputArguments values =>
      { s with m_outputArguments := values }
  | HandlerAction.appendOutputArgument value =>
      { s with m_outputArguments := s.m_outputArguments ++ [value] }
  | HandlerAction.emitResultStatusCodeChanged _ => s
  | HandlerAction.emitOutputArgumentsChanged => s

/-- Statement sequence of OpcUaMethodNode::handleMethodCallFinished
(opcuamethodnode.cpp lines 228 to 240), in source order:
`m_resultStatusCode = statusCode; m_outputArguments.clear();` then either
the verbatim assignment of the converted list (when
`result.canConvert<QVariantList>()`) or the append of the scalar result,
then the two emissions, resultStatusCodeChanged(m_resultStatusCode) first
and outputArgumentsChanged second.  The carried methodNodeId is unused
(Q_UNUSED in the source). -/
def handleMethodCallFinishedTrace (result : QVariant)
    (statusCode : UaStatusCode) : List HandlerAction :=
  [HandlerAction.assignResultStatusCode statusCode,
   HandlerAction.clearOutputArguments]
  ++ (if canConvertVariantList result then
        [HandlerAction.assignOutputArguments (toVariantList result)]
      else
        [HandlerAction.appendOutputArgument result])
  ++ [HandlerAction.emitResultStatusCodeChanged statusCode,
      HandlerAction.emitOutputArgumentsChanged]

/-- OpcUaMethodNode::handleMethodCallFinished as a state transformer: the
final state after the statement sequence, paired with the trace of actions
in execution order. -/
def handleMethodCallFinished (s : OpcUaMethodNodeState)
    (_methodNodeId : String) (result : QVariant)
    (statusCode : UaStatusCode) :
    OpcUaMethodNodeState × List HandlerAction :=
  let trace := handleMethodCallFinishedTrace result statusCode
  (trace.foldl applyHandlerAction s, trace)

/-- The detail message passed to setStatus by checkValidity for an object
node whose class is neither Object nor ObjectType (punctuation of the
original string elided). -/
def objectNodeClassMessage : String :=
  "Object node is not of type Object or ObjectType"

/-- OpcUaMethodNode::checkValidity (opcuamethodnode.cpp lines 247 to 264).
The first statement dereferences `m_node` without a null check; the model
returns `none` when `m_node` is null (the C++ dereference is undefined
behaviour there, outside the function s domain).  Otherwise the source
checks, in order: method node class not Method (InvalidNodeType, false);
object node pointer or its backend handle null (InvalidObjectNode, false);
object node class neither Object nor ObjectType (InvalidObjectNode with a
detail message, false); else true.  It issues no remote request (the
return type carries none). -/
def checkValidity (s : OpcUaMethodNodeState) :
    Option (OpcUaMethodNodeState × Bool) :=
  match s.m_node with
  | none => none
  | some methodHandle =>
    if methodHandle.nodeClassAttr ≠ NodeClass.Method then
      some (setStatus s Status.InvalidNodeType "", false)
    else
      match s.m_objectNode with
      | none => some (setStatus s Status.InvalidObjectNode "", false)
      | some none => some (setStatus s Status.InvalidObjectNode "", false)
      | some (some objectHandle) =>
        if objectHandle.nodeClassAttr ≠ NodeClass.Object ∧
           objectHandle.nodeClassAttr ≠ NodeClass.ObjectType then
          some (setStatus s Status.InvalidObjectNode objectNodeClassMessage,
                false)
        else
          some (s, true)

/-! Concrete example handles and states used by witnesses and
counterexamples. -/

/-- A resolved method node handle whose class attribute is Method. -/
def exampleMethodHandle : UaNode :=
  { nodeId := "ns=2;s=Demo.Method", nodeClassAttr := NodeClass.Method }

/-- A resolved object node handle whose class attribute is Object. -/
def exampleObjectHandle : UaNode :=
  { nodeId := "ns=2;s=Demo.Object", nodeClassAttr := NodeClass.Object }

/-- A resolved method node handle whose class attribute is Variable. -/
def exampleVariableMethodHandle : UaNode :=
  { nodeId := "ns=2;s=Demo.Var", nodeClassAttr := NodeClass.Variable }

/-- A resolved object node handle whose class attribute is Variable. -/
def exampleVariableObjectHandle : UaNode :=
  { nodeId := "ns=2;s=Demo.VarObj", nodeClassAttr := NodeClass.Variable }

/-- Freshly constructed method node: no object node, no method handle,
result status still at the neutral success value. -/
def stateNoObjectNode : OpcUaMethodNodeState :=
  { m_objectNode := none, m_node := none, m_inputArguments := [],
    m_outputArguments := [], m_resultStatusCode := UaStatusCode.Good,
    nodeStatus := Status.Valid, nodeErrorMessage := "" }

/-- Object node wrapper exists but its resolution has not produced a
backend handle yet. -/
def stateUnresolvedObjectNode : OpcUaMethodNodeState :=
  { stateNoObjectNode with m_objectNode := some none }

/-- Object node resolved, method node handle still null. -/
def stateNoMethodNode : OpcUaMethodNodeState :=
  { stateNoObjectNode with m_objectNode := some (some exampleObjectHandle) }

/-- Object node and method node both resolved, two input arguments set. -/
def stateReady : OpcUaMethodNodeState :=
  { stateNoMethodNode with
    m_node := some exampleMethodHandle,
    m_inputArguments :=
      [{ value := QVariant.ofInt 3, type := WireType.double },
       { value := QVariant.ofInt 4, type := WireType.double }] }

/-- Method node resolved but of class Variable; no object node. -/
def stateVariableMethod : OpcUaMethodNodeState :=
  { stateNoObjectNode with m_node := some exampleVariableMethodHandle }

/-- Method node of class Method; no object node. -/
def stateMethodNoObject : OpcUaMethodNodeState :=
  { stateNoObjectNode with m_node := some exampleMethodHandle }

/-- Method node of class Method; object node resolved to a Variable. -/
def stateMethodVariableObject : OpcUaMethodNodeState :=
  { stateMethodNoObject with
    m_objectNode := some (some exampleVariableObjectHandle) }

/-- Method node of class Method; object node resolved to an Object. -/
def stateMethodGoodObject : OpcUaMethodNodeState :=
  { stateMethodNoObject with m_objectNode := some (some exampleObjectHandle) }

/-! Model of QOpcUaHistoryData (qopcuahistorydata.cpp).  The record is an
implicitly shared value type: a pointer into a heap of reference-counted
storage blocks. -/

/-- Storage block of a history record (class QOpcUaHistoryDataData,
qopcuahistorydata.cpp lines 53 to 59): the sample list, the overall status
code and the node id.  The sample type is a parameter; the container never
inspects samples. -/
structure QOpcUaHistoryDataData (α : Type) where
  result : List α
  statusCode : UaStatusCode
  nodeId : String

/-- Modelled from the spec: the member holding the storage of
QOpcUaHistoryData is a shared-data pointer declared in a header that is not
part of the extract; the spec prescribes copy-on-write value semantics
(copies share the block, a mutation detaches the mutating copy onto a
private block when the block is shared).  The heap maps addresses to a
block paired with its reference count (0 meaning free); `next` is the
first never-allocated address. -/
structure SharedHeap (α : Type) where
  mem : Nat → QOpcUaHistoryDataData α × Nat
  next : Nat

/-- Block stored at address `p`. -/
def SharedHeap.block {α : Type} (h : SharedHeap α) (p : Nat) :
    QOpcUaHistoryDataData α :=
  (h.mem p).1

/-- Reference count of the block stored at address `p`. -/
def SharedHeap.refCount {α : Type} (h : SharedHeap α) (p : Nat) : Nat :=
  (h.mem p).2

/-- Overwrite the entry at address `p`. -/
def SharedHeap.write {α : Type} (h : SharedHeap α) (p : Nat)
    (entry : QOpcUaHistoryDataData α × Nat) : SharedHeap α :=
  { h with mem := fun q => if q = p then entry else h.mem q }

/-- Allocate a fresh block with reference count 1, returning its address. -/
def SharedHeap.alloc {α : Type} (h : SharedHeap α)
    (b : QOpcUaHistoryDataData α) : Nat × SharedHeap α :=
  (h.next,
   { mem := fun q => if q = h.next then (b, 1) else h.mem q,
     next := h.next + 1 })

/-- QOpcUaHistoryData default constructor (qopcuahistorydata.cpp lines 61
to 65): a fresh block with empty sample list, status Good and empty node
id. -/
def historyDataNew {α : Type} (h : SharedHeap α) : Nat × SharedHeap α :=
  h.alloc { result := [], statusCode := UaStatusCode.Good, nodeId := "" }

/-- QOpcUaHistoryData nodeId constructor (qopcuahistorydata.cpp lines 70 to
75): a fresh block with empty sample list, status Good and the given node
id. -/
def historyDataNewWithNodeId {α : Type} (h : SharedHeap α)
    (nodeId : String) : Nat × SharedHeap α :=
  h.alloc { result := [], statusCode := UaStatusCode.Good, nodeId := nodeId }

/-- QOpcUaHistoryData copy constructor (qopcuahistorydata.cpp lines 80 to
83): the copy shares the block of `other` (`data(other.data)`), which
raises its reference count. -/
def historyDataCopy {α : Type} (h : SharedHeap α) (p : Nat) :
    Nat × SharedHeap α :=
  (p, h.write p (h.block p, h.refCount p + 1))

/-- QOpcUaHistoryData assignment operator (qopcuahistorydata.cpp lines 156
to 161): `data.operator=(rhs.data)` releases the reference to the old
block of the destination and shares the block of the source. -/
def historyDataAssign {α : Type} (h : SharedHeap α) (dst src : Nat) :
    Nat × SharedHeap α :=
  let h1 := h.write dst (h.block dst, h.refCount dst - 1)
  (src, h1.write src (h1.block src, h1.refCount src + 1))

/-- Modelled from the spec: detach on first write (copy-on-write).  When
the block is unshared (reference count 1) the record keeps it; otherwise
the record releases one reference and moves onto a freshly allocated
private copy of the block. -/
def historyDataDetach {α : Type} (h : SharedHeap α) (p : Nat) :
    Nat × SharedHeap α :=
  if h.refCount p = 1 then (p, h)
  else
    let h1 := h.write p (h.block p, h.refCount p - 1)
    h1.alloc (h.block p)

/-- QOpcUaHistoryData::addValue (qopcuahistorydata.cpp lines 132 to 135):
`data->result.append(value)`.  The write access detaches first, then
appends the sample at the end of the list of the record's block. -/
def historyDataAddValue {α : Type} (h : SharedHeap α) (p : Nat)
    (value : α) : Nat × SharedHeap α :=
  let step := historyDataDetach h p
  let q := step.1
  let h1 := step.2
  (q, h1.write q
        ({ h1.block q with result := (h1.block q).result ++ [value] },
         h1.refCount q))

/-- QOpcUaHistoryData::count (qopcuahistorydata.cpp lines 124 to 127):
`data->result.count()`; a const access, no detach. -/
def historyDataCount {α : Type} (h : SharedHeap α) (p : Nat) : Nat :=
  (h.block p).result.length

/-- QOpcUaHistoryData::result (qopcuahistorydata.cpp lines 108 to 111):
`data->result`; a const access, no detach. -/
def historyDataResult {α : Type} (h : SharedHeap α) (p : Nat) : List α :=
  (h.block p).result

/-- A record pointer is valid when its address has been allocated and its
block is referenced by at least one record. -/
def validRecord {α : Type} (h : SharedHeap α) (p : Nat) : Prop :=
  p < h.next ∧ 1 ≤ h.refCount p

/-- Fold of addValue over a list of samples, threading record pointer and
heap. -/
def historyDataAddValues {α : Type} (h : SharedHeap α) (p : Nat)
    (xs : List α) : Nat × SharedHeap α :=
  xs.foldl (fun acc x => historyDataAddValue acc.2 acc.1 x) (p, h)

/-- An all-free heap over Int samples, used by witnesses. -/
def initialHeap : SharedHeap Int :=
  { mem := fun _ =>
      ({ result := [], statusCode := UaStatusCode.Good, nodeId := "" }, 0),
    next := 0 }

/-- Witness heap: one history record holding the single sample 5. -/
def cowBaseHeap : SharedHeap Int :=
  (historyDataAddValue (historyDataNew initialHeap).2
    (historyDataNew initialHeap).1 5).2

/-- Witness record pointer into cowBaseHeap. -/
def cowBasePtr : Nat :=
  (historyDataAddValue (historyDataNew initialHeap).2
    (historyDataNew initialHeap).1 5).1

/-! Model of the signal-and-slot wiring of OpcUaMethodNode, used for the
object-node identity replacement behaviour (setObjectNodeId,
opcuamethodnode.cpp lines 182 to 190, and handleObjectNodeIdChanged,
lines 216 to 226). -/

/-- An endpoint of a Qt connection in this component: the method node
itself, an identity object (OpcUaNodeIdType), a resolution wrapper object
(OpcUaNode), or the backend handle of a resolution (modelled with the id of
its resolution). -/
inductive SignalEndpoint
  | methodNode
  | identity (i : Nat)
  | resolution (r : Nat)
  | backendHandle (r : Nat)
  deriving DecidableEq

/-- The signals the source file connects. -/
inductive SignalKind
  | nodeChanged
  | readyToUseChanged
  | methodCallFinished
  deriving DecidableEq

/-- The slots the source file connects; readySubscriber is the lambda the
source connects to readyToUseChanged. -/
inductive SlotKind
  | handleObjectNodeIdChangedSlot
  | readySubscriber
  | handleMethodCallFinishedSlot
  deriving DecidableEq

/-- One Qt connection: a sender emitting a signal into a slot of a
receiver. -/
structure Connection where
  sender : SignalEndpoint
  signal : SignalKind
  receiver : SignalEndpoint
  slot : SlotKind
  deriving DecidableEq

/-- Connection-level state of one OpcUaMethodNode: the current identity
object, the current resolution wrapper, which identity each resolution was
bound to by setNodeId, the resolutions handed to deleteLater, the supply of
fresh resolution ids, and the live connections (a Qt connection list may
hold duplicates). -/
structure MethodNodeConnState where
  m_objectNodeId : Option Nat
  m_objectNode : Option Nat
  resolutionTarget : Nat → Option Nat
  pendingDelete : List Nat
  nextResolution : Nat
  connections : List Connection

/-- Modelled Qt semantics of the member call disconnect(receiver) used at
opcuamethodnode.cpp line 185: it severs every connection whose sender is
the calling object, here the method node, and whose receiver is the given
object; connections in the opposite direction are not touched. -/
def disconnectFromReceiver (conns : List Connection)
    (receiver : SignalEndpoint) : List Connection :=
  conns.filter (fun c =>
    if c.sender = SignalEndpoint.methodNode ∧ c.receiver = receiver then
      false
    else true)

/-- Modelled Qt semantics of connect with Qt::UniqueConnection
(opcuamethodnode.cpp line 222): the connection is added only when no
identical connection exists already. -/
def connectUnique (conns : List Connection) (c : Connection) :
    List Connection :=
  if c ∈ conns then conns else conns ++ [c]

/-- The connection made by setObjectNodeId at opcuamethodnode.cpp line 188:
nodeChanged of the identity object into handleObjectNodeIdChanged. -/
def nodeChangedConnection (i : Nat) : Connection :=
  { sender := SignalEndpoint.identity i, signal := SignalKind.nodeChanged,
    receiver := SignalEndpoint.methodNode,
    slot := SlotKind.handleObjectNodeIdChangedSlot }

/-- The connection made by handleObjectNodeIdChanged at opcuamethodnode.cpp
line 221: readyToUseChanged of the resolution wrapper into the subscribing
lambda. -/
def readyConnection (r : Nat) : Connection :=
  { sender := SignalEndpoint.resolution r,
    signal := SignalKind.readyToUseChanged,
    receiver := SignalEndpoint.methodNode,
    slot := SlotKind.readySubscriber }

/-- The connection made by the lambda at opcuamethodnode.cpp line 222:
methodCallFinished of the backend handle of the current resolution into
handleMethodCallFinished, with Qt::UniqueConnection. -/
def finishedConnection (r : Nat) : Connection :=
  { sender := SignalEndpoint.backendHandle r,
    signal := SignalKind.methodCallFinished,
    receiver := SignalEndpoint.methodNode,
    slot := SlotKind.handleMethodCallFinishedSlot }

/-- OpcUaMethodNode::handleObjectNodeIdChanged (opcuamethodnode.cpp lines
216 to 226) at connection level: hands the current resolution wrapper to
deleteLater (a null pointer makes that a no-op), creates a fresh resolution
wrapper bound to the current identity, and connects its readyToUseChanged
to the subscribing lambda. -/
def handleObjectNodeIdChangedConn (s : MethodNodeConnState) :
    MethodNodeConnState :=
  let afterDelete : MethodNodeConnState :=
    match s.m_objectNode with
    | some r => { s with pendingDelete := s.pendingDelete ++ [r] }
    | none => s
  let r := afterDelete.nextResolution
  { afterDelete with
    m_objectNode := some r,
    nextResolution := r + 1,
    resolutionTarget := fun q =>
      if q = r then afterDelete.m_objectNodeId
      else afterDelete.resolutionTarget q,
    connections := afterDelete.connections ++ [readyConnection r] }

/-- OpcUaMethodNode::setObjectNodeId (opcuamethodnode.cpp lines 182 to
190): when an identity was set, calls disconnect(m_objectNodeId) (the
member overload, whose receiver is the identity object); stores the new
identity; connects its nodeChanged to handleObjectNodeIdChanged; then runs
handleObjectNodeIdChanged synchronously. -/
def setObjectNodeIdConn (s : MethodNodeConnState) (ident : Nat) :
    MethodNodeConnState :=
  let s1 : MethodNodeConnState :=
    match s.m_objectNodeId with
    | some old =>
        { s with connections :=
            disconnectFromReceiver s.connections (SignalEndpoint.identity old) }
    | none => s
  let s2 := { s1 with m_objectNodeId := some ident }
  let s3 := { s2 with connections :=
      s2.connections ++ [nodeChangedConnection ident] }
  handleObjectNodeIdChangedConn s3

/-- Body of the lambda connected to readyToUseChanged (opcuamethodnode.cpp
lines 221 to 223): subscribes handleMethodCallFinished to the
methodCallFinished signal of the backend handle of the current resolution,
with Qt::UniqueConnection. -/
def readySubscriberBody (s : MethodNodeConnState) : MethodNodeConnState :=
  match s.m_objectNode with
  | none => s
  | some r =>
      { s with connections := connectUnique s.connections (finishedConnection r) }

/-- Modelled Qt semantics of a signal emission: the connected slot runs
once per matching live connection. -/
def deliverNodeChanged (s : MethodNodeConnState) (i : Nat) :
    MethodNodeConnState :=
  (List.range (s.connections.count (nodeChangedConnection i))).foldl
    (fun acc _ => handleObjectNodeIdChangedConn acc) s

/-- Modelled Qt semantics of a readiness emission of resolution `r`: the
subscribing lambda runs once per matching live connection. -/
def deliverReadyToUseChanged (s : MethodNodeConnState) (r : Nat) :
    MethodNodeConnState :=
  (List.range (s.connections.count (readyConnection r))).foldl
    (fun acc _ => readySubscriberBody acc) s

/-- Number of live subscriptions of handleMethodCallFinished to the
completion signal of the backend handle of resolution `r`. -/
def finishedSubscriptionCount (s : MethodNodeConnState) (r : Nat) : Nat :=
  s.connections.count (finishedConnection r)

/-- A method node fresh from its constructor: nothing set, nothing
connected. -/
def initialConnState : MethodNodeConnState :=
  { m_objectNodeId := none, m_objectNode := none,
    resolutionTarget := fun _ => none, pendingDelete := [],
    nextResolution := 0, connections := [] }

/-- State after setObjectNodeId with identity object 1. -/
def connStateAfterFirstSet : MethodNodeConnState :=
  setObjectNodeIdConn initialConnState 1

/-- State after replacing the identity: setObjectNodeId with identity
object 2 while resolution 0 (bound to identity 1) is pending. -/
def connStateAfterSecondSet : MethodNodeConnState :=
  setObjectNodeIdConn connStateAfterFirstSet 2

/-- Claim C1, counterexample.  The claim states that a callMethod invocation
with no object node leaves resultStatusCode at InvalidObjectNode.  On the
concrete fresh state the call issues no request and records the failure in
the separate node-status field, while m_resultStatusCode is untouched and
still holds the success code Good (the type of m_resultStatusCode has no
InvalidObjectNode value at all), so resultStatusCode indicates success, not
the claimed failure. -/
theorem callMethod_result_status_counterexample :
    (callMethod stateNoObjectNode).2 = none ∧
    (callMethod stateNoObjectNode).1.nodeStatus = Status.InvalidObjectNode ∧
    isGood (callMethod stateNoObjectNode).1.m_resultStatusCode = true ∧
    (callMethod stateNoObjectNode).1.m_resultStatusCode =
      stateNoObjectNode.m_resultStatusCode :=
  ⟨rfl, rfl, rfl, rfl⟩

/-- Claim C1, amended.  callMethod checks its preconditions in source order
with the first match winning and aborts without issuing a remote request:
a missing object-node wrapper, or a wrapper whose resolution has produced
no backend handle, sets the node status to InvalidObjectNode; a resolved
object node with a null method node handle sets InvalidNodeId; in every
case m_resultStatusCode is left unchanged (it is not the field that
receives the failure). -/
theorem callMethod_precondition_checks (s : OpcUaMethodNodeState) :
    (s.m_objectNode = none →
        callMethod s = (setStatus s Status.InvalidObjectNode "", none)) ∧
    (s.m_objectNode = some none →
        callMethod s = (setStatus s Status.InvalidObjectNode "", none)) ∧
    (∀ objectHandle, s.m_objectNode = some (some objectHandle) →
        s.m_node = none →
        callMethod s = (setStatus s Status.InvalidNodeId "", none)) ∧
    (callMethod s).1.m_resultStatusCode = s.m_resultStatusCode := by
  refine ⟨?_, ?_, ?_, ?_⟩
  · intro h; simp [callMethod, h]
  · intro h; simp [callMethod, h]
  · intro objectHandle h1 h2; simp [callMethod, h1, h2]
  · rcases hobj : s.m_objectNode with _ | inner
    · simp [callMethod, hobj, setStatus]
    · rcases inner with _ | objectHandle
      · simp [callMethod, hobj, setStatus]
      · rcases hnode : s.m_node with _ | methodHandle
        · simp [callMethod, hobj, hnode, setStatus]
        · simp [callMethod, hobj, hnode]

/-- Witness for callMethod_precondition_checks: the three failure branches
evaluated on concrete states. -/
theorem callMethod_precondition_checks_witness :
    callMethod stateNoObjectNode =
      (setStatus stateNoObjectNode Status.InvalidObjectNode "", none) ∧
    callMethod stateUnresolvedObjectNode =
      (setStatus stateUnresolvedObjectNode Status.InvalidObjectNode "", none) ∧
    callMethod stateNoMethodNode =
      (setStatus stateNoMethodNode Status.InvalidNodeId "", none) :=
  ⟨(callMethod_precondition_checks stateNoObjectNode).1 rfl,
   (callMethod_precondition_checks stateUnresolvedObjectNode).2.1 rfl,
   (callMethod_precondition_checks stateNoMethodNode).2.2.1
     exampleObjectHandle rfl rfl⟩

/-- Claim C2: for every completion event, handleMethodCallFinished
overwrites m_resultStatusCode unconditionally with the delivered status
code and replaces m_outputArguments: the converted sequence verbatim when
the delivered result converts to a QVariantList (including the empty
sequence), otherwise the one-element list holding the scalar result. -/
theorem handleMethodCallFinished_overwrites (s : OpcUaMethodNodeState)
    (methodNodeId : String) (result : QVariant) (statusCode : UaStatusCode) :
    (handleMethodCallFinished s methodNodeId result
        statusCode).1.m_resultStatusCode = statusCode ∧
    (handleMethodCallFinished s methodNodeId result
        statusCode).1.m_outputArguments =
      (if canConvertVariantList result then toVariantList result
       else [result]) := by
  cases h : canConvertVariantList result <;>
    simp [handleMethodCallFinished, handleMethodCallFinishedTrace, h,
      applyHandlerAction]

/-- Claim C3: failing-input evaluation.  A completion event whose status
code is a failure (BadUnexpectedError, not Good) carrying a non-sequence
scalar result leaves m_outputArguments as the one-element list holding the
scalar, not the empty list the claim (and the qml doc of outputArguments in
the source) promises for a failed call. -/
theorem handleMethodCallFinished_failed_scalar_not_empty :
    isGood UaStatusCode.BadUnexpectedError = false ∧
    (handleMethodCallFinished stateReady "ns=2;s=Demo.Method"
        (QVariant.ofInt 42) UaStatusCode.BadUnexpectedError).1.m_resultStatusCode
      = UaStatusCode.BadUnexpectedError ∧
    (handleMethodCallFinished stateReady "ns=2;s=Demo.Method"
        (QVariant.ofInt 42) UaStatusCode.BadUnexpectedError).1.m_outputArguments
      = [QVariant.ofInt 42] ∧
    [QVariant.ofInt 42] ≠ ([] : List QVariant) :=
  ⟨rfl, rfl, rfl, by simp⟩

/-- Claim C5: checkValidity, on a state whose method node handle is set,
returns false in exactly the three claimed cases, checked in order: method
node class not Method (InvalidNodeType); object node wrapper missing or
unresolved (InvalidObjectNode); object node class neither Object nor
ObjectType (InvalidObjectNode with a populated detail message); otherwise
it returns true.  The return type carries no remote request, so no remote
call is issued. -/
theorem checkValidity_cases (s : OpcUaMethodNodeState) (methodHandle : UaNode)
    (hnode : s.m_node = some methodHandle) :
    (methodHandle.nodeClassAttr ≠ NodeClass.Method →
        checkValidity s = some (setStatus s Status.InvalidNodeType "", false)) ∧
    (methodHandle.nodeClassAttr = NodeClass.Method →
        (s.m_objectNode = none ∨ s.m_objectNode = some none) →
        checkValidity s = some (setStatus s Status.InvalidObjectNode "", false)) ∧
    (∀ objectHandle, methodHandle.nodeClassAttr = NodeClass.Method →
        s.m_objectNode = some (some objectHandle) →
        objectHandle.nodeClassAttr ≠ NodeClass.Object →
        objectHandle.nodeClassAttr ≠ NodeClass.ObjectType →
        checkValidity s =
          some (setStatus s Status.InvalidObjectNode objectNodeClassMessage,
                false) ∧
        objectNodeClassMessage ≠ "") ∧
    (∀ objectHandle, methodHandle.nodeClassAttr = NodeClass.Method →
        s.m_objectNode = some (some objectHandle) →
        (objectHandle.nodeClassAttr = NodeClass.Object ∨
         objectHandle.nodeClassAttr = NodeClass.ObjectType) →
        checkValidity s = some (s, true)) := by
  refine ⟨?_, ?_, ?_, ?_⟩
  · intro h; simp [checkValidity, hnode, h]
  · rintro h (hobj | hobj) <;> simp [checkValidity, hnode, h, hobj]
  · intro objectHandle h hobj h1 h2
    exact ⟨by simp [checkValidity, hnode, h, hobj, h1, h2], by decide⟩
  · rintro objectHandle h hobj (hcls | hcls) <;>
      simp [checkValidity, hnode, h, hobj, hcls]

/-- Witness for checkValidity_cases: the four branches evaluated on
concrete states (Variable method node; Method node with no object node;
Method node with Variable object node; Method node with Object object
node). -/
theorem checkValidity_cases_witness :
    checkValidity stateVariableMethod =
      some (setStatus stateVariableMethod Status.InvalidNodeType "", false) ∧
    checkValidity stateMethodNoObject =
      some (setStatus stateMethodNoObject Status.InvalidObjectNode "", false) ∧
    (checkValidity stateMethodVariableObject =
      some (setStatus stateMethodVariableObject Status.InvalidObjectNode
              objectNodeClassMessage, false) ∧
     objectNodeClassMessage ≠ "") ∧
    checkValidity stateMethodGoodObject = some (stateMethodGoodObject, true) :=
  ⟨(checkValidity_cases stateVariableMethod exampleVariableMethodHandle
      rfl).1 (by decide),
   (checkValidity_cases stateMethodNoObject exampleMethodHandle rfl).2.1
      rfl (Or.inl rfl),
   (checkValidity_cases stateMethodVariableObject exampleMethodHandle
      rfl).2.2.1 exampleVariableObjectHandle rfl rfl (by decide) (by decide),
   (checkValidity_cases stateMethodGoodObject exampleMethodHandle
      rfl).2.2.2 exampleObjectHandle rfl rfl (Or.inl rfl)⟩

/-- Claim C6: for every completion event the handler trace consists of
state updates followed by exactly the two emissions, the
resultStatusCode-changed notification strictly before the
outputArguments-changed notification; and the state reached after the
update prefix already equals the final state, so both notifications are
emitted strictly after the state they describe has been updated. -/
theorem handler_notification_ordering (s : OpcUaMethodNodeState)
    (methodNodeId : String) (result : QVariant) (statusCode : UaStatusCode) :
    ∃ updates : List HandlerAction,
      (handleMethodCallFinished s methodNodeId result statusCode).2 =
        updates ++ [HandlerAction.emitResultStatusCodeChanged statusCode,
                    HandlerAction.emitOutputArgumentsChanged] ∧
      (∀ a ∈ updates, a.isStateUpdate = true) ∧
      updates.foldl applyHandlerAction s =
        (handleMethodCallFinished s methodNodeId result statusCode).1 := by
  cases h : canConvertVariantList result
  · refine ⟨[HandlerAction.assignResultStatusCode statusCode,
             HandlerAction.clearOutputArguments,
             HandlerAction.appendOutputArgument result], ?_, ?_, ?_⟩
    · simp [handleMethodCallFinished, handleMethodCallFinishedTrace, h]
    · intro a ha
      simp only [List.mem_cons, List.not_mem_nil, or_false] at ha
      rcases ha with rfl | rfl | rfl <;> rfl
    · simp [handleMethodCallFinished, handleMethodCallFinishedTrace, h,
        applyHandlerAction]
  · refine ⟨[HandlerAction.assignResultStatusCode statusCode,
             HandlerAction.clearOutputArguments,
             HandlerAction.assignOutputArguments (toVariantList result)],
           ?_, ?_, ?_⟩
    · simp [handleMethodCallFinished, handleMethodCallFinishedTrace, h]
    · intro a ha
      simp only [List.mem_cons, List.not_mem_nil, or_false] at ha
      rcases ha with rfl | rfl | rfl <;> rfl
    · simp [handleMethodCallFinished, handleMethodCallFinishedTrace, h,
        applyHandlerAction]

/-- Claim C7: when both null guards pass, callMethod builds the submitted
argument sequence as the map over m_inputArguments of the pair of value and
wire type, in list order (position i of the sequence is the pair built from
argument i), submits it against the resolved method node identity on the
resolved object node, and leaves the whole state (in particular
m_resultStatusCode and m_outputArguments) unchanged; completion is
delivered separately through handleMethodCallFinished, so the call itself
does not block on the result. -/
theorem callMethod_success_submits (s : OpcUaMethodNodeState)
    (objectHandle methodHandle : UaNode)
    (hobj : s.m_objectNode = some (some objectHandle))
    (hnode : s.m_node = some methodHandle) :
    callMethod s =
      (s, some { objectNode := objectHandle,
                 methodNodeId := methodHandle.nodeId,
                 arguments := s.m_inputArguments.map
                   (fun item => (item.value, item.type)) }) ∧
    ∀ i : Fin s.m_inputArguments.length,
      (s.m_inputArguments.map (fun item => (item.value, item.type))).get
          ⟨i.val, by simp [i.isLt]⟩ =
        ((s.m_inputArguments.get i).value, (s.m_inputArguments.get i).type) := by
  constructor
  · simp [callMethod, hobj, hnode]
  · intro i
    simp [List.get_eq_getElem, List.getElem_map]

/-- Witness for callMethod_success_submits: on the ready state with two
arguments the submitted request carries both pairs in order and the state
is returned unchanged. -/
theorem callMethod_success_submits_witness :
    callMethod stateReady =
      (stateReady,
       some { objectNode := exampleObjectHandle,
              methodNodeId := exampleMethodHandle.nodeId,
              arguments := [(QVariant.ofInt 3, WireType.double),
                            (QVariant.ofInt 4, WireType.double)] }) := by
  have h := (callMethod_success_submits stateReady exampleObjectHandle
    exampleMethodHandle rfl rfl).1
  simpa [stateReady, stateNoMethodNode, stateNoObjectNode] using h

/-- Claim C10: checkValidity dereferences the method node handle without a
null check, so its model is defined (`some`) exactly when m_node is set and
undefined (`none`) when it is not; by contrast callMethod guards the same
handle explicitly and degrades to the InvalidNodeId failure with no remote
request even when the object node is fully resolved. -/
theorem checkValidity_method_node_domain (s : OpcUaMethodNodeState) :
    (s.m_node = none → checkValidity s = none) ∧
    (∀ methodHandle, s.m_node = some methodHandle →
        (checkValidity s).isSome = true) ∧
    (∀ objectHandle, s.m_node = none →
        s.m_objectNode = some (some objectHandle) →
        callMethod s = (setStatus s Status.InvalidNodeId "", none)) := by
  refine ⟨?_, ?_, ?_⟩
  · intro h; simp [checkValidity, h]
  · intro methodHandle h
    simp only [checkValidity, h]
    split
    · rfl
    · split
      · rfl
      · rfl
      · split
        · rfl
        · rfl
  · intro objectHandle h hobj; simp [callMethod, h, hobj]

/-- Witness for checkValidity_method_node_domain: the three parts evaluated
on concrete states. -/
theorem checkValidity_method_node_domain_witness :
    checkValidity stateNoObjectNode = none ∧
    (checkValidity stateMethodGoodObject).isSome = true ∧
    callMethod stateNoMethodNode =
      (setStatus stateNoMethodNode Status.InvalidNodeId "", none) :=
  ⟨(checkValidity_method_node_domain stateNoObjectNode).1 rfl,
   (checkValidity_method_node_domain stateMethodGoodObject).2.1
     exampleMethodHandle rfl,
   (checkValidity_method_node_domain stateNoMethodNode).2.2
     exampleObjectHandle rfl rfl⟩

/-! Helper lemmas about the shared heap, used by the history-data claims. -/

/-- count is the length of the sample list of the record, by definition. -/
theorem historyDataCount_eq_result_length {α : Type} (h : SharedHeap α)
    (p : Nat) : historyDataCount h p = (historyDataResult h p).length := rfl

/-- addValue appends the sample at the end of the mutating record's list,
whatever the sharing situation. -/
theorem historyDataAddValue_result {α : Type} (h : SharedHeap α) (p : Nat)
    (x : α) :
    historyDataResult (historyDataAddValue h p x).2
      (historyDataAddValue h p x).1 = historyDataResult h p ++ [x] := by
  by_cases hrc : h.refCount p = 1
  · simp [historyDataAddValue, historyDataDetach, hrc, historyDataResult,
      SharedHeap.write, SharedHeap.block]
  · simp [historyDataAddValue, historyDataDetach, hrc, historyDataResult,
      SharedHeap.write, SharedHeap.block, SharedHeap.alloc]

/-- addValue on a shared block detaches: the mutating record moves to the
fresh address and the block at the old address keeps its sample list. -/
theorem historyDataAddValue_shared {α : Type} (h : SharedHeap α) (p : Nat)
    (x : α) (hrc : h.refCount p ≠ 1) (hp : p < h.next) :
    (historyDataAddValue h p x).1 = h.next ∧
    historyDataResult (historyDataAddValue h p x).2 p =
      historyDataResult h p := by
  have hne : p ≠ h.next := Nat.ne_of_lt hp
  constructor
  · simp [historyDataAddValue, historyDataDetach, hrc, SharedHeap.alloc,
      SharedHeap.write]
  · simp [historyDataAddValue, historyDataDetach, hrc, historyDataResult,
      SharedHeap.write, SharedHeap.block, SharedHeap.alloc, hne]

/-- Facts about the copy constructor: same address, same allocation bound,
incremented reference count, all sample lists untouched. -/
theorem historyDataCopy_facts {α : Type} (h : SharedHeap α) (p q : Nat) :
    (historyDataCopy h p).1 = p ∧
    (historyDataCopy h p).2.next = h.next ∧
    (historyDataCopy h p).2.refCount p = h.refCount p + 1 ∧
    historyDataResult (historyDataCopy h p).2 q = historyDataResult h q := by
  refine ⟨rfl, rfl, ?_, ?_⟩
  · simp [historyDataCopy, SharedHeap.write, SharedHeap.refCount]
  · by_cases hq : q = p
    · subst hq
      simp [historyDataCopy, SharedHeap.write, SharedHeap.block,
        historyDataResult]
    · simp [historyDataCopy, SharedHeap.write, SharedHeap.block,
        historyDataResult, hq]

/-- addValue by a record whose block is shared leaves the count observed at
the old address unchanged and gives the mutating record one sample more
(counts compared against a reference heap whose list at `p` agrees). -/
theorem addValue_on_shared_block {α : Type} (g h : SharedHeap α) (p : Nat)
    (x : α) (hrc : g.refCount p ≠ 1) (hp : p < g.next)
    (hres : historyDataResult g p = historyDataResult h p) :
    historyDataCount (historyDataAddValue g p x).2 p =
      historyDataCount h p ∧
    historyDataCount (historyDataAddValue g p x).2
      (historyDataAddValue g p x).1 = historyDataCount h p + 1 := by
  obtain ⟨hq, hkeep⟩ := historyDataAddValue_shared g p x hrc hp
  constructor
  · rw [historyDataCount_eq_result_length, historyDataCount_eq_result_length,
      hkeep, hres]
  · rw [historyDataCount_eq_result_length, historyDataCount_eq_result_length,
      historyDataAddValue_result, hres]
    simp

/-- Claim C4: copy-on-write.  For a valid record `a` at address `p`, a copy
`b` (obtained by copy construction, or by assignment onto a freshly
constructed record) shares the block; a subsequent `b.addValue x` detaches
`b` onto a private block, so the count observed through `a` is unchanged
while `b` counts one sample more.  The situation is symmetric: after the
copy both records point at `p`, and whichever of the two mutates is the one
that detaches, leaving the other unaffected. -/
theorem historyData_copy_on_write {α : Type} (h : SharedHeap α) (p : Nat)
    (x : α) (hv : validRecord h p) :
    (historyDataCount
        (historyDataAddValue (historyDataCopy h p).2
          (historyDataCopy h p).1 x).2 p = historyDataCount h p ∧
     historyDataCount
        (historyDataAddValue (historyDataCopy h p).2
          (historyDataCopy h p).1 x).2
        (historyDataAddValue (historyDataCopy h p).2
          (historyDataCopy h p).1 x).1 = historyDataCount h p + 1) ∧
    (historyDataCount
        (historyDataAddValue
          (historyDataAssign (historyDataNew h).2 (historyDataNew h).1 p).2
          (historyDataAssign (historyDataNew h).2 (historyDataNew h).1 p).1
          x).2 p = historyDataCount h p ∧
     historyDataCount
        (historyDataAddValue
          (historyDataAssign (historyDataNew h).2 (historyDataNew h).1 p).2
          (historyDataAssign (historyDataNew h).2 (historyDataNew h).1 p).1
          x).2
        (historyDataAddValue
          (historyDataAssign (historyDataNew h).2 (historyDataNew h).1 p).2
          (historyDataAssign (historyDataNew h).2 (historyDataNew h).1 p).1
          x).1 = historyDataCount h p + 1) := by
  obtain ⟨hp, hrc⟩ := hv
  have hne : p ≠ h.next := Nat.ne_of_lt hp
  constructor
  · obtain ⟨hc1, hc2, hc3, -⟩ := historyDataCopy_facts h p p
    rw [hc1]
    refine addValue_on_shared_block (historyDataCopy h p).2 h p x ?_ ?_ ?_
    · rw [hc3]; omega
    · rw [hc2]; exact hp
    · exact (historyDataCopy_facts h p p).2.2.2
  · have hptr : (historyDataAssign (historyDataNew h).2 (historyDataNew h).1
        p).1 = p := rfl
    rw [hptr]
    have hrc2 : (historyDataAssign (historyDataNew h).2 (historyDataNew h).1
        p).2.refCount p = h.refCount p + 1 := by
      simp [historyDataAssign, historyDataNew, SharedHeap.alloc,
        SharedHeap.write, SharedHeap.refCount, SharedHeap.block, hne]
    have hnext2 : (historyDataAssign (historyDataNew h).2 (historyDataNew h).1
        p).2.next = h.next + 1 := rfl
    have hres2 : historyDataResult
        (historyDataAssign (historyDataNew h).2 (historyDataNew h).1 p).2 p =
        historyDataResult h p := by
      simp [historyDataAssign, historyDataNew, SharedHeap.alloc,
        SharedHeap.write, SharedHeap.block, historyDataResult, hne]
    refine addValue_on_shared_block _ h p x ?_ ?_ hres2
    · rw [hrc2]; omega
    · rw [hnext2]; omega

/-- Witness for historyData_copy_on_write: the copy-on-write theorem
applied to the concrete one-sample record of cowBaseHeap with sample 7. -/
theorem historyData_copy_on_write_witness :
    validRecord cowBaseHeap cowBasePtr ∧
    ((historyDataCount
        (historyDataAddValue (historyDataCopy cowBaseHeap cowBasePtr).2
          (historyDataCopy cowBaseHeap cowBasePtr).1 (7 : Int)).2 cowBasePtr =
        historyDataCount cowBaseHeap cowBasePtr ∧
      historyDataCount
        (historyDataAddValue (historyDataCopy cowBaseHeap cowBasePtr).2
          (historyDataCopy cowBaseHeap cowBasePtr).1 (7 : Int)).2
        (historyDataAddValue (historyDataCopy cowBaseHeap cowBasePtr).2
          (historyDataCopy cowBaseHeap cowBasePtr).1 (7 : Int)).1 =
        historyDataCount cowBaseHeap cowBasePtr + 1) ∧
     (historyDataCount
        (historyDataAddValue
          (historyDataAssign (historyDataNew cowBaseHeap).2
            (historyDataNew cowBaseHeap).1 cowBasePtr).2
          (historyDataAssign (historyDataNew cowBaseHeap).2
            (historyDataNew cowBaseHeap).1 cowBasePtr).1 (7 : Int)).2
        cowBasePtr = historyDataCount cowBaseHeap cowBasePtr ∧
      historyDataCount
        (historyDataAddValue
          (historyDataAssign (historyDataNew cowBaseHeap).2
            (historyDataNew cowBaseHeap).1 cowBasePtr).2
          (historyDataAssign (historyDataNew cowBaseHeap).2
            (historyDataNew cowBaseHeap).1 cowBasePtr).1 (7 : Int)).2
        (historyDataAddValue
          (historyDataAssign (historyDataNew cowBaseHeap).2
            (historyDataNew cowBaseHeap).1 cowBasePtr).2
          (historyDataAssign (historyDataNew cowBaseHeap).2
            (historyDataNew cowBaseHeap).1 cowBasePtr).1 (7 : Int)).1 =
        historyDataCount cowBaseHeap cowBasePtr + 1)) :=
  ⟨⟨by decide, by decide⟩,
   historyData_copy_on_write cowBaseHeap cowBasePtr 7 ⟨by decide, by decide⟩⟩

/-- Fold form of addValue: the samples of the mutating record accumulate at
the end, in call order. -/
theorem historyDataAddValues_result {α : Type} (h : SharedHeap α) (p : Nat)
    (xs : List α) :
    historyDataResult (historyDataAddValues h p xs).2
      (historyDataAddValues h p xs).1 = historyDataResult h p ++ xs := by
  induction xs generalizing h p with
  | nil => simp [historyDataAddValues]
  | cons x xs ih =>
    have step := ih (historyDataAddValue h p x).2 (historyDataAddValue h p x).1
    simp only [historyDataAddValues, List.foldl_cons] at step ⊢
    rw [step, historyDataAddValue_result]
    simp

/-- Claim C8: for every sequence of addValue calls on a record created by
either constructor, count equals the number of calls and result returns the
samples in insertion order; in general addValue appends at the end and
never reorders existing entries, and count always equals the length of the
sample list. -/
theorem historyData_addValue_sequence {α : Type} (h : SharedHeap α)
    (nodeIdArg : String) (xs : List α) :
    (historyDataResult
        (historyDataAddValues (historyDataNew h).2 (historyDataNew h).1 xs).2
        (historyDataAddValues (historyDataNew h).2 (historyDataNew h).1 xs).1
      = xs ∧
     historyDataCount
        (historyDataAddValues (historyDataNew h).2 (historyDataNew h).1 xs).2
        (historyDataAddValues (historyDataNew h).2 (historyDataNew h).1 xs).1
      = xs.length) ∧
    (historyDataResult
        (historyDataAddValues (historyDataNewWithNodeId h nodeIdArg).2
          (historyDataNewWithNodeId h nodeIdArg).1 xs).2
        (historyDataAddValues (historyDataNewWithNodeId h nodeIdArg).2
          (historyDataNewWithNodeId h nodeIdArg).1 xs).1 = xs ∧
     historyDataCount
        (historyDataAddValues (historyDataNewWithNodeId h nodeIdArg).2
          (historyDataNewWithNodeId h nodeIdArg).1 xs).2
        (historyDataAddValues (historyDataNewWithNodeId h nodeIdArg).2
          (historyDataNewWithNodeId h nodeIdArg).1 xs).1 = xs.length) ∧
    (∀ (g : SharedHeap α) (p : Nat) (x : α),
        historyDataResult (historyDataAddValue g p x).2
          (historyDataAddValue g p x).1 = historyDataResult g p ++ [x]) ∧
    (∀ (g : SharedHeap α) (p : Nat),
        historyDataCount g p = (historyDataResult g p).length) := by
  have hstart : historyDataResult (historyDataNew h).2 (historyDataNew h).1 =
      ([] : List α) := by
    simp [historyDataNew, SharedHeap.alloc, historyDataResult,
      SharedHeap.block]
  have hstart2 : historyDataResult (historyDataNewWithNodeId h nodeIdArg).2
      (historyDataNewWithNodeId h nodeIdArg).1 = ([] : List α) := by
    simp [historyDataNewWithNodeId, SharedHeap.alloc, historyDataResult,
      SharedHeap.block]
  refine ⟨⟨?_, ?_⟩, ⟨?_, ?_⟩, ?_, ?_⟩
  · rw [historyDataAddValues_result, hstart]; simp
  · rw [historyDataCount_eq_result_length, historyDataAddValues_result,
      hstart]
    simp
  · rw [historyDataAddValues_result, hstart2]; simp
  · rw [historyDataCount_eq_result_length, historyDataAddValues_result,
      hstart2]
    simp
  · exact fun g p x => historyDataAddValue_result g p x
  · exact fun g p => historyDataCount_eq_result_length g p

/-- Claim C9: failing-input evaluation.  After setObjectNodeId(identity 1)
followed by setObjectNodeId(identity 2): the discarded resolution 0 has
been handed to deleteLater and a new resolution bound to identity 2 exists
(the parts of the claim the code meets), but the nodeChanged connection of
the previously set identity 1 is still live, because disconnect with the
identity as its argument severs connections from the method node to the
identity, of which there are none, not the identity's own signal.  A
nodeChanged emission of the stale identity 1 therefore still triggers a
re-resolution: a fresh resolution wrapper is created, bound to the current
identity 2.  The UniqueConnection part of the claim does hold: two
readiness emissions of the current resolution leave exactly one
subscription to its completion signal. -/
theorem setObjectNodeId_stale_identity_still_connected :
    connStateAfterSecondSet.pendingDelete = [0] ∧
    connStateAfterSecondSet.m_objectNode = some 1 ∧
    connStateAfterSecondSet.resolutionTarget 1 = some 2 ∧
    nodeChangedConnection 1 ∈ connStateAfterSecondSet.connections ∧
    (deliverNodeChanged connStateAfterSecondSet 1).nextResolution =
      connStateAfterSecondSet.nextResolution + 1 ∧
    (deliverNodeChanged connStateAfterSecondSet 1).m_objectNode ≠
      connStateAfterSecondSet.m_objectNode ∧
    (deliverNodeChanged connStateAfterSecondSet 1).resolutionTarget
      connStateAfterSecondSet.nextResolution = some 2 ∧
    finishedSubscriptionCount
      (deliverReadyToUseChanged
        (deliverReadyToUseChanged connStateAfterSecondSet 1) 1) 1 = 1 := by
  decide

end QtOpcUaModel
